import Mathlib

/-!
# Differential-Squirrel: the database clients

A shallow embedding of `srcs/internal/client/client_mysql.cc`, `client_mysql.h` and
`client_postgresql.cc`.

* `std::string` is `String`; one `Char` stands for one byte.
* `int` is `Int`; a conversion from a wider or unsigned type goes through `to_int`
  (two's complement, 32 bits). `unsigned int` is `Nat` reduced modulo `2 ^ 32`.
* A member function takes the object as its first argument and returns the object
  it leaves behind; a function that may throw returns an `Except Exception _`
  next to the state it leaves behind, so that what was mutated before the throw stays
  visible.
* The MySQL and PostgreSQL client libraries and the server are a parameter: the
  `World` holds, for every connection attempt, how the backend will answer.
-/

namespace client

/-! ## Machine integers and `std::to_string` -/

/-- The value an `int` takes when it is set from the unsigned value `n` (32 bits, two's complement). -/
def to_int (n : Nat) : Int :=
  if n % 2 ^ 32 < 2 ^ 31 then ((n % 2 ^ 32 : Nat) : Int) else ((n % 2 ^ 32 : Nat) : Int) - 2 ^ 32

/-- The pre-increment of an `unsigned int`. -/
def incr_unsigned (n : Nat) : Nat := (n + 1) % 2 ^ 32

/-! ## Exceptions -/

/-- The exceptions the clients can let escape. -/
inductive Exception where
  /-- The exception of yaml-cpp when `as<std::string>()` is asked of a node that is no scalar. -/
  | yaml_bad_conversion
  /-- The class `std::out_of_range`, with its message. -/
  | out_of_range (what : String)
  /-- The class `std::invalid_argument`, with its message. -/
  | invalid_argument (what : String)
  /-- The class `std::runtime_error`, with its message. -/
  | runtime_error (what : String)
  deriving DecidableEq, Repr

/-! ## The configuration (`YAML::Node`) -/

/-- A node of the configuration, as far as the clients look at it. -/
inductive Node where
  /-- The node of a key that is absent. -/
  | undefined
  /-- A scalar, with its text. -/
  | scalar (s : String)
  /-- A sequence of scalars and other nodes; `none` is an entry that is no scalar. -/
  | sequence (xs : List (Option String))
  /-- A nested mapping. -/
  | mapping
  deriving DecidableEq, Repr

/-- The configuration: the node found under each key of the top-level mapping. -/
abbrev Config := String → Node

/-- The conversion `node.as<std::string>()`. -/
def Node.as_string : Node → Except Exception String
  | Node.scalar s => Except.ok s
  | _ => Except.error Exception.yaml_bad_conversion

/-- The lambda `get_from_config` of `MySQLClient::initialize`. -/
def get_from_config (config : Config) (field : String) (index : Int) : Except Exception String :=
  match config field with
  | Node.sequence xs =>
    if index ≥ 0 ∧ index.toNat < xs.length then
      match xs[index.toNat]? with
      | some (some s) => Except.ok s
      | _ => Except.error Exception.yaml_bad_conversion
    else
      Except.error (Exception.out_of_range
        ("Invalid index or missing field \x27" ++ field ++ "\x27 in the configuration"))
  | _ =>
    Except.error (Exception.out_of_range
      ("Invalid index or missing field \x27" ++ field ++ "\x27 in the configuration"))

/-! ## The MySQL client: its state -/

/-- The data members of `MySQLClient` (client_mysql.h). -/
structure MySQLClient where
  database_id_ : Nat := 0
  host_ : String := ""
  user_name_ : String := ""
  passwd_ : String := ""
  sock_path_ : String := ""
  db_prefix_ : String := ""
  port_ : String := ""
  executable : String := ""
  basedir : String := ""
  pid_file : String := ""
  datadir : String := ""
  extra_running_parameters : String := ""
  startup_command : String := ""
  deriving DecidableEq, Repr

/-- A client as its constructor leaves it. -/
def MySQLClient.construct : MySQLClient := {}

/-- The function `MySQLClient::initialize`: the assignments in the order of the source, each
one able to throw after the ones before it have taken effect. -/
def MySQLClient.initialize (self : MySQLClient) (config : Config) (database_number : Int) :
    Except Exception Unit × MySQLClient :=
  match (config "host").as_string with
  | Except.error e => (Except.error e, self)
  | Except.ok v =>
  let self := { self with host_ := v }
  match (config "user_name").as_string with
  | Except.error e => (Except.error e, self)
  | Except.ok v =>
  let self := { self with user_name_ := v }
  match (config "passwd").as_string with
  | Except.error e => (Except.error e, self)
  | Except.ok v =>
  let self := { self with passwd_ := v }
  match (config "db_prefix").as_string with
  | Except.error e => (Except.error e, self)
  | Except.ok v =>
  let self := { self with db_prefix_ := v }
  match get_from_config config "ports" database_number with
  | Except.error e => (Except.error e, self)
  | Except.ok v =>
  let self := { self with port_ := v }
  match get_from_config config "executables" database_number with
  | Except.error e => (Except.error e, self)
  | Except.ok v =>
  let self := { self with executable := v }
  match get_from_config config "basedirs" database_number with
  | Except.error e => (Except.error e, self)
  | Except.ok v =>
  let self := { self with basedir := v }
  match get_from_config config "datadirs" database_number with
  | Except.error e => (Except.error e, self)
  | Except.ok v =>
  let self := { self with datadir := v }
  match get_from_config config "pid_files" database_number with
  | Except.error e => (Except.error e, self)
  | Except.ok v =>
  let self := { self with pid_file := v }
  match get_from_config config "sock_paths" database_number with
  | Except.error e => (Except.error e, self)
  | Except.ok v =>
  let self := { self with sock_path_ := v }
  match (config "startup_cmd").as_string with
  | Except.error e => (Except.error e, self)
  | Except.ok v =>
  let self := { self with extra_running_parameters := v }
  (Except.ok (),
    { self with
      startup_command :=
        self.executable ++ " --socket=" ++ self.sock_path_ ++ " --pid_file=" ++ self.pid_file
          ++ " --port=" ++ self.port_ ++ " --basedir=" ++ self.basedir ++ " --datadir="
          ++ self.datadir ++ self.extra_running_parameters })

/-- The function `MySQLClient::get_startup_command`: the value returned and the client after. -/
def MySQLClient.get_startup_command (self : MySQLClient) : String × MySQLClient :=
  (self.startup_command, self)

/-! ## The MySQL client library and the server, as the client sees them -/

/-- The constant `CR_SERVER_GONE_ERROR` of errmsg.h. -/
def CR_SERVER_GONE_ERROR : Int := 2006

/-- The constant `CR_SERVER_LOST` of errmsg.h. -/
def CR_SERVER_LOST : Int := 2013

/-- The constant `ER_PARSE_ERROR` of mysqld_error.h. -/
def ER_PARSE_ERROR : Int := 1064

/-- One cell of a fetched row: the bytes found at `row[i]` and the length `lengths[i]`
that `mysql_fetch_lengths` reports for it. -/
structure Cell where
  data : String
  length : Nat
  deriving DecidableEq, Repr

/-- A stored result set (`MYSQL_RES`): what `mysql_num_fields` reports and the rows that
`mysql_fetch_row` hands out, in order. -/
structure MYSQL_RES where
  num_fields : Nat
  rows : List (List Cell)
  deriving DecidableEq, Repr

/-- What a connection reports about the statement it is at. -/
structure ResultState where
  /-- The value of `mysql_affected_rows`, a `my_ulonglong`. -/
  affected_rows : Nat
  /-- The result `mysql_store_result` returns; `none` is `NULL`. -/
  result : Option MYSQL_RES
  /-- The value of `mysql_more_results`. -/
  more_results : Bool
  /-- The value of `mysql_errno`, an `unsigned int`. -/
  errno : Nat
  deriving DecidableEq, Repr

/-- One answer of the backend to `mysql_next_result`: the value returned and what the
connection reports afterwards. -/
structure NextResult where
  status : Int
  state : ResultState
  deriving DecidableEq, Repr

/-- The answer of the backend to `mysql_real_query`: the value returned, what the connection
reports afterwards, and the answers it will give to the calls of `mysql_next_result`. -/
structure Reply where
  response : Int
  state : ResultState
  next : List NextResult
  deriving DecidableEq, Repr

/-- How the backend behaves towards one connection attempt: whether `mysql_init` and
`mysql_real_connect` succeed, and how a query submitted on the connection is answered. -/
structure Attempt where
  init_ok : Bool
  connect_ok : Bool
  answer : String → Reply

/-- What a connection reports when the backend has nothing more for it: the library clears
the error and sets the affected rows to `~0`. -/
def ResultState.idle : ResultState :=
  { affected_rows := 2 ^ 64 - 1, result := none, more_results := false, errno := 0 }

/-- A connection handle (`MYSQL`). -/
structure MYSQL where
  answer : String → Reply
  state : ResultState
  next : List NextResult

/-- A call that reaches the backend. -/
inductive Event where
  /-- The call `mysql_real_connect` with this database (`none` is `nullptr`) and port. -/
  | connect (db : Option String) (port : Int)
  /-- The call `mysql_real_query` with this text. -/
  | query (text : String)
  deriving DecidableEq, Repr

/-- The backend and the bookkeeping of the calls made to it. -/
structure World where
  /-- How the backend behaves towards the `n`-th connection attempt. -/
  behaviour : Nat → Attempt
  /-- The number of connection attempts made so far. -/
  attempts : Nat
  /-- The number of handles initialised by `mysql_init` and not yet closed by `mysql_close`. -/
  open_handles : Nat
  /-- The calls that reached the backend, oldest first. -/
  log : List Event

/-- The call `mysql_init(&handle)`: `none` is `NULL`. -/
def mysql_init (w : World) : Option MYSQL × World :=
  let a := w.behaviour w.attempts
  let w := { w with attempts := w.attempts + 1 }
  if a.init_ok then
    (some { answer := a.answer, state := ResultState.idle, next := [] },
      { w with open_handles := w.open_handles + 1 })
  else (none, w)

/-- The call `mysql_real_connect`: `false` is `NULL`. The attempt it belongs to is the one
`mysql_init` has just counted. -/
def mysql_real_connect (db : Option String) (port : Int) (w : World) : Bool × World :=
  ((w.behaviour (w.attempts - 1)).connect_ok, { w with log := w.log ++ [Event.connect db port] })

/-- The call `mysql_close`. -/
def mysql_close (w : World) : World :=
  { w with open_handles := w.open_handles - 1 }

/-- The call `mysql_real_query`. -/
def mysql_real_query (mm : MYSQL) (query : String) (w : World) : Int × MYSQL × World :=
  let r := mm.answer query
  (r.response, { mm with state := r.state, next := r.next },
    { w with log := w.log ++ [Event.query query] })

/-- The call `mysql_next_result`: the next answer of the backend, or `-1` (no more results)
when it has none. -/
def mysql_next_result (mm : MYSQL) : Int × MYSQL :=
  match mm.next with
  | [] => (-1, { mm with state := ResultState.idle })
  | step :: rest => (step.status, { mm with state := step.state, next := rest })

/-- The call `mysql_affected_rows`. -/
def mysql_affected_rows (mm : MYSQL) : Nat := mm.state.affected_rows

/-- The call `mysql_store_result`: the result is handed out once. -/
def mysql_store_result (mm : MYSQL) : Option MYSQL_RES × MYSQL :=
  (mm.state.result, { mm with state := { mm.state with result := none } })

/-- The call `mysql_more_results`. -/
def mysql_more_results (mm : MYSQL) : Bool := mm.state.more_results

/-- The call `mysql_errno`. -/
def mysql_errno (mm : MYSQL) : Nat := mm.state.errno

/-- The constructor `std::string(ptr, n)` on the bytes of a cell. -/
def std_string (c : Cell) : String := String.mk (c.data.data.take c.length)

/-- The test `isspace` of the C locale. -/
def isspace (c : Char) : Bool :=
  c == ' ' || c == '\t' || c == '\n' || c == '\x0b' || c == '\x0c' || c == '\r'

/-- The function `std::stoi`: leading white space, an optional sign, then decimal digits up
to the first other character. -/
def stoi (s : String) : Except Exception Int :=
  let cs := s.data.dropWhile isspace
  let negative := cs.head? == some '-'
  let cs := if cs.head? == some '-' ∨ cs.head? == some '+' then cs.tail else cs
  let digits := cs.takeWhile Char.isDigit
  if digits.isEmpty then Except.error (Exception.invalid_argument "stoi")
  else
    let magnitude : Int := digits.foldl (fun acc d => 10 * acc + ((d.toNat - 48 : Nat) : Int)) 0
    let value := if negative then -magnitude else magnitude
    if value < -(2 ^ 31) ∨ value > 2 ^ 31 - 1 then Except.error (Exception.out_of_range "stoi")
    else Except.ok value

/-- The anonymous-namespace function `is_crash_response`. -/
def is_crash_response (response : Int) : Bool :=
  response == CR_SERVER_LOST || response == CR_SERVER_GONE_ERROR

/-- Modelled from the spec: the enumeration `ExecutionStatus` of client.h, which is not among
the sources; the spec names the four outcomes Normal, SyntaxError, SemanticError and
ServerCrash, and the source uses the enumerators below. -/
inductive ExecutionStatus where
  | kNormal
  | kSyntaxError
  | kSemanticError
  | kServerCrash
  deriving DecidableEq, Repr

/-- Modelled from the spec: the sentinel string of an outcome, the wire contract of section 6. -/
def ExecutionStatus.sentinel : ExecutionStatus → String
  | ExecutionStatus.kNormal => "kNormal"
  | ExecutionStatus.kSyntaxError => "kSyntaxError"
  | ExecutionStatus.kSemanticError => "kSemanticError"
  | ExecutionStatus.kServerCrash => "kServerCrash"

/-! ## The MySQL client: its member functions -/

/-- The function `MySQLClient::create_connection`: `none` is `std::nullopt`. The port is
converted by `std::stoi` while the arguments of `mysql_real_connect` are evaluated, after
`mysql_init` has succeeded. -/
def MySQLClient.create_connection (self : MySQLClient) (db_name : String) (w : World) :
    Except Exception (Option MYSQL) × World :=
  match mysql_init w with
  | (none, w) => (Except.ok none, w)
  | (some result, w) =>
    match stoi self.port_ with
    | Except.error e => (Except.error e, w)
    | Except.ok port =>
      match mysql_real_connect (some db_name) port w with
      | (false, w) => (Except.ok none, mysql_close w)
      | (true, w) => (Except.ok (some result), w)

/-- The loop of `MySQLClient::clean_up_connection`: store and free the result, ask for the
next one, go on while the answer is `0`. The value is the last answer and the handle.
The recursion is bounded by `fuel`; `clean_up_connection` passes more than the number of
answers the backend holds, and an answer `0` uses one of them up. -/
def drain_results : Nat → MYSQL → Int × MYSQL
  | 0, mm => (-1, mm)
  | fuel + 1, mm =>
    let mm := (mysql_store_result mm).2
    let r := mysql_next_result mm
    if r.1 == 0 then drain_results fuel r.2 else r

/-- The function `MySQLClient::clean_up_connection`: the status returned and the handle. -/
def MySQLClient.clean_up_connection (mm : MYSQL) : ExecutionStatus × MYSQL :=
  let r := drain_results (mm.next.length + 1) mm
  let mm := r.2
  if r.1 != -1 then
    let res := to_int (mysql_errno mm)
    if is_crash_response res then (ExecutionStatus.kServerCrash, mm)
    else if res == ER_PARSE_ERROR then (ExecutionStatus.kSyntaxError, mm)
    else (ExecutionStatus.kSemanticError, mm)
  else (ExecutionStatus.kNormal, mm)

/-- The function `MySQLClient::create_database`. It connects with database `nullptr` and
port `0`. When `mysql_init` fails the source calls `mysql_close` on the handle that was
refused; that handle was never counted as open. -/
def MySQLClient.create_database (self : MySQLClient) (database : String) (w : World) :
    Bool × World :=
  let _ := self
  match mysql_init w with
  | (none, w) => (false, w)
  | (some tmp_m, w) =>
    match mysql_real_connect none 0 w with
    | (false, w) => (false, mysql_close w)
    | (true, w) =>
      let cmd := "CREATE DATABASE IF NOT EXISTS " ++ database ++ ";"
      let (_, tmp_m, w) := mysql_real_query tmp_m cmd w
      let _ := MySQLClient.clean_up_connection tmp_m
      (true, mysql_close w)

/-- The function `MySQLClient::prepare_env`. -/
def MySQLClient.prepare_env (self : MySQLClient) (w : World) : MySQLClient × World :=
  let self := { self with database_id_ := incr_unsigned self.database_id_ }
  let database_name := self.db_prefix_ ++ toString self.database_id_
  (self, (self.create_database database_name w).2)

/-- The text one result set adds in `MySQLClient::execute`: the affected rows narrowed to
`int`, a space, and for a stored result every `row[i]` with `i < mysql_num_fields`. -/
def append_result (rows : String) (affected : Nat) (result : Option MYSQL_RES) : String :=
  let affected_rows : Int := to_int affected
  let rows := rows ++ (toString affected_rows ++ " ")
  match result with
  | some res =>
    res.rows.foldl
      (fun rows row =>
        (List.range res.num_fields).foldl
          (fun rows i => rows ++ std_string (row.getD i { data := "", length := 0 })) rows)
      rows
  | none => rows

/-- The do-while loop of `MySQLClient::execute`, with its flag `first`. The recursion is
bounded by `fuel`; `execute` passes more rounds than the backend can ask for. -/
def execute_loop : Nat → Bool → MYSQL → String → MYSQL × String
  | 0, _, mm, rows => (mm, rows)
  | fuel + 1, first, mm, rows =>
    let mm := if !first then (mysql_next_result mm).2 else mm
    let affected := mysql_affected_rows mm
    let (result, mm) := mysql_store_result mm
    let rows := append_result rows affected result
    let more := mysql_more_results mm
    if more then execute_loop fuel false mm rows else (mm, rows)

/-- The function `MySQLClient::execute`, as client_mysql.cc defines it, with the return type
`std::string` (client_mysql.h declares `ExecutionStatus`): the value returned, or the
exception that escapes, and the world it leaves behind. -/
def MySQLClient.execute (self : MySQLClient) (query : String) (w : World) :
    Except Exception String × World :=
  let database_name := self.db_prefix_ ++ toString self.database_id_
  match self.create_connection database_name w with
  | (Except.error e, w) => (Except.error e, w)
  | (Except.ok none, w) => (Except.ok "kServerCrash", w)
  | (Except.ok (some connection), w) =>
    let (server_response, connection, w) := mysql_real_query connection query w
    if is_crash_response server_response then (Except.ok "kServerCrash", w)
    else
      let (connection, rows) := execute_loop (connection.next.length + 2) true connection ""
      let _server_status := (MySQLClient.clean_up_connection connection).1
      (Except.ok rows, mysql_close w)

/-- The function `MySQLClient::clean_up_env`. -/
def MySQLClient.clean_up_env (self : MySQLClient) (w : World) : Except Exception Unit × World :=
  let database_name := self.db_prefix_ ++ toString self.database_id_
  let reset_query := "DROP DATABASE IF EXISTS " ++ database_name ++ ";"
  match self.create_connection "" w with
  | (Except.error e, w) => (Except.error e, w)
  | (Except.ok none, w) => (Except.ok (), w)
  | (Except.ok (some connection), w) =>
    let (_, connection, w) := mysql_real_query connection reset_query w
    let _ := MySQLClient.clean_up_connection connection
    (Except.ok (), mysql_close w)

/-- The function `MySQLClient::check_alive`. -/
def MySQLClient.check_alive (self : MySQLClient) (w : World) : Except Exception Bool × World :=
  match self.create_connection "" w with
  | (Except.error e, w) => (Except.error e, w)
  | (Except.ok none, w) => (Except.ok false, w)
  | (Except.ok (some _), w) => (Except.ok true, mysql_close w)

/-! ## The PostgreSQL client -/

/-- The values of `PQstatus` seen on a blocking connection (libpq-fe.h). -/
inductive ConnStatusType where
  | CONNECTION_OK
  | CONNECTION_BAD
  deriving DecidableEq, Repr

/-- The values of `PQresultStatus` (libpq-fe.h). -/
inductive ExecStatusType where
  | PGRES_EMPTY_QUERY
  | PGRES_COMMAND_OK
  | PGRES_TUPLES_OK
  | PGRES_COPY_OUT
  | PGRES_COPY_IN
  | PGRES_BAD_RESPONSE
  | PGRES_NONFATAL_ERROR
  | PGRES_FATAL_ERROR
  deriving DecidableEq, Repr

/-- How the backend behaves towards one call of `PQconnectdb`: the status of the connection
it returns, and for a command sent with `PQexec` the status of the result and the status of
the connection afterwards. -/
structure PGAttempt where
  status : ConnStatusType
  exec : String → ExecStatusType × ConnStatusType

/-- A connection object (`PGconn`). -/
structure PGconn where
  status : ConnStatusType
  exec : String → ExecStatusType × ConnStatusType

/-- The PostgreSQL backend and the bookkeeping of the calls made to it. -/
structure PGWorld where
  /-- How the backend behaves towards the `n`-th call of `PQconnectdb`. -/
  behaviour : Nat → PGAttempt
  /-- The number of calls of `PQconnectdb` so far. -/
  attempts : Nat
  /-- The number of connection objects returned by `PQconnectdb` and not yet freed by `PQfinish`. -/
  open_handles : Nat
  /-- The commands sent with `PQexec`, oldest first. -/
  log : List String

/-- The call `PQconnectdb`: it returns a connection object whatever the outcome. -/
def PQconnectdb (_conninfo : String) (w : PGWorld) : PGconn × PGWorld :=
  let a := w.behaviour w.attempts
  ({ status := a.status, exec := a.exec },
    { w with attempts := w.attempts + 1, open_handles := w.open_handles + 1 })

/-- The call `PQstatus`. -/
def PQstatus (conn : PGconn) : ConnStatusType := conn.status

/-- The call `PQexec`: the status of the result and the connection afterwards. -/
def PQexec (conn : PGconn) (command : String) (w : PGWorld) :
    ExecStatusType × PGconn × PGWorld :=
  let r := conn.exec command
  (r.1, { conn with status := r.2 }, { w with log := w.log ++ [command] })

/-- The call `PQfinish`. -/
def PQfinish (w : PGWorld) : PGWorld :=
  { w with open_handles := w.open_handles - 1 }

/-- The member `c_str()`: the bytes up to the first NUL. -/
def c_str (s : String) : String := String.mk (s.data.takeWhile (fun c => c != '\x00'))

/-- The members of `PostgreSQLClient` that client_postgresql.cc assigns; the declaration of
the class is not among the sources. -/
structure PostgreSQLClient where
  host_ : String := ""
  port_ : String := ""
  user_name_ : String := ""
  passwd_ : String := ""
  db_name_ : String := ""
  sock_path_ : String := ""
  deriving DecidableEq, Repr

/-- The anonymous-namespace function `create_connection` of client_postgresql.cc. -/
def pg_create_connection (db_name : String) (w : PGWorld) : PGconn × PGWorld :=
  let conninfo := "hostaddr=127.0.0.1 port=0 dbname=" ++ db_name ++ " connect_timeout=4"
  PQconnectdb conninfo w

/-- The function `PostgreSQLClient::execute`. -/
def PostgreSQLClient.execute (self : PostgreSQLClient) (query : String) (w : PGWorld) :
    String × PGWorld :=
  let (conn, w) := pg_create_connection self.db_name_ w
  if PQstatus conn != ConnStatusType.CONNECTION_OK then ("kServerCrash", PQfinish w)
  else
    let cmd := query
    let (res, conn, w) := PQexec conn (c_str cmd) w
    if PQstatus conn != ConnStatusType.CONNECTION_OK then ("kServerCrash", w)
    else if res != ExecStatusType.PGRES_COMMAND_OK ∧ res != ExecStatusType.PGRES_TUPLES_OK then
      ("kExecuteError", PQfinish w)
    else ("kNormal", PQfinish w)

/-! ## Sequences of operations on a MySQL client -/

/-- The calls that reached the backend between the world `before` and the world `after`. -/
def new_events (before after : World) : List Event := after.log.drop before.log.length

/-! ## Example inputs -/

/-- A configuration with two instances. -/
def example_config : Config := fun key =>
  if key = "host" then Node.scalar "127.0.0.1"
  else if key = "user_name" then Node.scalar "root"
  else if key = "passwd" then Node.scalar "secret"
  else if key = "db_prefix" then Node.scalar "fuzz"
  else if key = "startup_cmd" then Node.scalar " --skip-grant-tables"
  else if key = "ports" then Node.sequence [some "3306", some "3307"]
  else if key = "executables" then Node.sequence [some "/m0/bin/mysqld", some "/m1/bin/mysqld"]
  else if key = "basedirs" then Node.sequence [some "/m0", some "/m1"]
  else if key = "datadirs" then Node.sequence [some "/m0/data", some "/m1/data"]
  else if key = "pid_files" then Node.sequence [some "/m0/pid", some "/m1/pid"]
  else if key = "sock_paths" then Node.sequence [some "/m0/sock", some "/m1/sock"]
  else Node.undefined

/-- The client that `initialize` leaves behind for the first instance of `example_config`. -/
def configured_client : MySQLClient :=
  ( MySQLClient.initialize MySQLClient.construct example_config 0).2

/-- A MySQL backend that answers every connection attempt in the same way, before any call. -/
def constant_world (a : Attempt) : World :=
  { behaviour := fun _ => a, attempts := 0, open_handles := 0, log := [] }

/-- A reply to a query that succeeds with one result set and nothing after it. -/
def single_result (affected : Nat) (result : Option MYSQL_RES) : Reply :=
  { response := 0,
    state := { affected_rows := affected, result := result, more_results := false, errno := 0 },
    next := [] }

/-- A backend whose `mysql_init` fails. -/
def world_without_init : World :=
  constant_world { init_ok := false, connect_ok := false, answer := fun _ => single_result 0 none }

/-- A backend whose `mysql_real_connect` fails. -/
def world_refusing : World :=
  constant_world { init_ok := true, connect_ok := false, answer := fun _ => single_result 0 none }

/-- A backend that accepts the connection and answers every query with `CR_SERVER_LOST`. -/
def world_losing_server : World :=
  constant_world
    { init_ok := true, connect_ok := true,
      answer := fun _ => { response := 2013, state := ResultState.idle, next := [] } }

/-- A backend that accepts the connection and answers every query with one result set of
one row and two cells, reporting one affected row. -/
def world_with_row : World :=
  constant_world
    { init_ok := true, connect_ok := true,
      answer := fun _ =>
        single_result 1
          (some { num_fields := 2,
                  rows := [[{ data := "7", length := 1 }, { data := "ab", length := 2 }]] }) }

/-- A PostgreSQL backend that answers every call of `PQconnectdb` in the same way. -/
def constant_pg_world (a : PGAttempt) : PGWorld :=
  { behaviour := fun _ => a, attempts := 0, open_handles := 0, log := [] }

/-- A PostgreSQL backend that connects and rejects every command, the connection staying up. -/
def pg_world_rejecting : PGWorld :=
  constant_pg_world
    { status := ConnStatusType.CONNECTION_OK,
      exec := fun _ => (ExecStatusType.PGRES_FATAL_ERROR, ConnStatusType.CONNECTION_OK) }

/-- A PostgreSQL backend that connects and loses the connection on every command. -/
def pg_world_losing_server : PGWorld :=
  constant_pg_world
    { status := ConnStatusType.CONNECTION_OK,
      exec := fun _ => (ExecStatusType.PGRES_FATAL_ERROR, ConnStatusType.CONNECTION_BAD) }

/-- The configuration `example_config` with a port that is no number. -/
def config_with_named_port : Config := fun key =>
  if key = "ports" then Node.sequence [some "mysql", some "3307"]
  else example_config key

/-- The client that `initialize` leaves behind for the first instance of
`config_with_named_port`. -/
def client_with_named_port : MySQLClient :=
  ( MySQLClient.initialize MySQLClient.construct config_with_named_port 0).2

/-- A PostgreSQL client for the database `fuzz`. -/
def pg_client : PostgreSQLClient := { db_name_ := "fuzz" }

/-- The configured client with its iteration counter at the largest `unsigned int`. -/
def client_at_last_id : MySQLClient := { configured_client with database_id_ := 4294967295 }

/-- The number a list of decimal digits stands for, read after the digits that gave `acc`. -/
def decimal_value (acc : Nat) (cs : List Char) : Nat :=
  cs.foldl (fun a c => 10 * a + (c.toNat - 48)) acc

/-! ## What the specification says, in its own words -/

/-- The four outcome sentinels of the specification. -/
def outcome_sentinels : List String :=
  [ExecutionStatus.kNormal.sentinel, ExecutionStatus.kSyntaxError.sentinel,
    ExecutionStatus.kSemanticError.sentinel, ExecutionStatus.kServerCrash.sentinel]

/-- The connection cannot be established: `mysql_init` returns `NULL`, or
`mysql_real_connect` is called and returns `NULL`. -/
def connection_refused (self : MySQLClient) (w : World) : Bool :=
  !(w.behaviour w.attempts).init_ok
    || ((stoi self.port_).toBool && !(w.behaviour w.attempts).connect_ok)

/-- The connection is established and the submission of `query` returns a crash code. -/
def submission_crashes (self : MySQLClient) (query : String) (w : World) : Bool :=
  (w.behaviour w.attempts).init_ok && (stoi self.port_).toBool
    && (w.behaviour w.attempts).connect_ok
    && is_crash_response ((w.behaviour w.attempts).answer query).response

/-- The statement that asks the backend to create the database `name`. -/
def create_request (name : String) : String := "CREATE DATABASE IF NOT EXISTS " ++ name ++ ";"

/-- The statement that asks the backend to drop the database `name`. -/
def drop_request (name : String) : String := "DROP DATABASE IF EXISTS " ++ name ++ ";"

/-- The calls that reach the backend when the database `name` is to be created on a backend
that behaves as `a`: the connection attempt when `mysql_init` succeeds, and the `CREATE`
statement when the connection is established. -/
def creation_events (a : Attempt) (name : String) : List Event :=
  if a.init_ok then
    Event.connect none 0 :: (if a.connect_ok then [Event.query (create_request name)] else [])
  else []

/-- The entry of the per-instance list `field` at position `index`, when there is one. -/
def config_entry (config : Config) (field : String) (index : Int) : Option String :=
  match config field with
  | Node.sequence xs =>
    if 0 ≤ index then
      match xs[index.toNat]? with
      | some (some s) => some s
      | _ => none
    else none
  | _ => none

theorem digitChar_value (k : Nat) (h : k < 10) : (Nat.digitChar k).toNat - 48 = k := by
  interval_cases k <;> rfl

theorem decimal_value_toDigitsCore (fuel : Nat) :
    ∀ (n : Nat) (ds : List Char), n < fuel →
      decimal_value 0 (Nat.toDigitsCore 10 fuel n ds) = decimal_value n ds := by
  induction fuel with
  | zero => intro n ds h; omega
  | succ fuel ih =>
    intro n ds h
    unfold Nat.toDigitsCore
    by_cases h0 : n / 10 = 0
    · simp only [h0, if_true]
      have hn : n % 10 = n := Nat.mod_eq_of_lt (by omega)
      have hd := digitChar_value (n % 10) (Nat.mod_lt n (by norm_num))
      rw [hn] at hd
      simp [decimal_value, hn, hd]
    · simp only [h0, if_false]
      rw [ih (n / 10) _ (by omega)]
      simp only [decimal_value, List.foldl_cons,
        digitChar_value (n % 10) (Nat.mod_lt n (by norm_num))]
      congr 1
      omega

/-- The decimal rendering of an unsigned number determines the number. -/
theorem toString_nat_injective (a b : Nat) (h : toString a = toString b) : a = b := by
  have h1 : Nat.toDigits 10 a = Nat.toDigits 10 b := by
    have := congrArg String.data h
    simpa [toString, Nat.repr, List.asString] using this
  have h2 := congrArg (decimal_value 0) h1
  unfold Nat.toDigits at h2
  rw [decimal_value_toDigitsCore _ _ _ (by omega),
    decimal_value_toDigitsCore _ _ _ (by omega)] at h2
  simpa [decimal_value] using h2

theorem append_left_cancel (p x y : String) (h : p ++ x = p ++ y) : x = y := by
  have := congrArg String.data h
  simp only [String.data_append, List.append_cancel_left_eq] at this
  exact String.ext this

/-! ## The configuration and the startup command -/

theorem get_from_config_of_entry (config : Config) (field : String) (index : Int) (v : String)
    (h : config_entry config field index = some v) :
    get_from_config config field index = Except.ok v := by
  unfold config_entry at h
  unfold get_from_config
  cases hx : config field with
  | sequence xs =>
    simp only [hx] at h
    by_cases h0 : 0 ≤ index
    · simp only [h0, if_true] at h
      cases hg : xs[index.toNat]? with
      | none => simp [hg] at h
      | some o =>
        have hlt : index.toNat < xs.length := by
          by_contra hc
          have := List.getElem?_eq_none (Nat.le_of_not_lt hc)
          simp [this] at hg
        cases o with
        | none => simp [hg] at h
        | some s =>
          simp only [hg, Option.some.injEq] at h
          simp [h0, hlt, hg, h]
    · simp [h0] at h
  | undefined => simp [hx] at h
  | scalar s => simp [hx] at h
  | mapping => simp [hx] at h

/-- C7: for a configuration that holds every field and an index that selects an entry of each
per-instance list, `initialize` succeeds and `get_startup_command` then returns exactly
executable, socket, pid file, port, basedir and datadir flags in this order followed by
the `startup_cmd` text, and returns the client unchanged. -/
theorem startup_command_format (self : MySQLClient) (config : Config) (index : Int)
    (host user_name passwd db_pfx startup_cmd : String)
    (port executable basedir datadir pid_file sock_path : String)
    (h_host : config "host" = Node.scalar host)
    (h_user : config "user_name" = Node.scalar user_name)
    (h_passwd : config "passwd" = Node.scalar passwd)
    (h_pfx : config "db_prefix" = Node.scalar db_pfx)
    (h_cmd : config "startup_cmd" = Node.scalar startup_cmd)
    (h_port : config_entry config "ports" index = some port)
    (h_executable : config_entry config "executables" index = some executable)
    (h_basedir : config_entry config "basedirs" index = some basedir)
    (h_datadir : config_entry config "datadirs" index = some datadir)
    (h_pid_file : config_entry config "pid_files" index = some pid_file)
    (h_sock_path : config_entry config "sock_paths" index = some sock_path) :
    ( MySQLClient.initialize self config index).1 = Except.ok () ∧
    ( MySQLClient.initialize self config index).2.get_startup_command.1 =
      executable ++ " --socket=" ++ sock_path ++ " --pid_file=" ++ pid_file ++ " --port=" ++ port
        ++ " --basedir=" ++ basedir ++ " --datadir=" ++ datadir ++ startup_cmd ∧
    ( MySQLClient.initialize self config index).2.get_startup_command.2 =
      ( MySQLClient.initialize self config index).2 := by
  have e1 := get_from_config_of_entry config "ports" index port h_port
  have e2 := get_from_config_of_entry config "executables" index executable h_executable
  have e3 := get_from_config_of_entry config "basedirs" index basedir h_basedir
  have e4 := get_from_config_of_entry config "datadirs" index datadir h_datadir
  have e5 := get_from_config_of_entry config "pid_files" index pid_file h_pid_file
  have e6 := get_from_config_of_entry config "sock_paths" index sock_path h_sock_path
  unfold MySQLClient.initialize MySQLClient.get_startup_command
  simp [h_host, h_user, h_passwd, h_pfx, h_cmd, Node.as_string, e1, e2, e3, e4, e5, e6]

/-- The witness of C7: the second instance of `example_config`. -/
theorem startup_command_format_witness :
    ( MySQLClient.initialize MySQLClient.construct example_config 1).1 = Except.ok () ∧
    ( MySQLClient.initialize MySQLClient.construct example_config 1).2.get_startup_command.1 =
      "/m1/bin/mysqld --socket=/m1/sock --pid_file=/m1/pid --port=3307 --basedir=/m1"
        ++ " --datadir=/m1/data --skip-grant-tables" ∧
    ( MySQLClient.initialize MySQLClient.construct example_config 1).2.get_startup_command.2 =
      ( MySQLClient.initialize MySQLClient.construct example_config 1).2 :=
  startup_command_format MySQLClient.construct example_config 1 "127.0.0.1" "root" "secret"
    "fuzz" " --skip-grant-tables" "3307" "/m1/bin/mysqld" "/m1" "/m1/data" "/m1/pid" "/m1/sock"
    rfl rfl rfl rfl rfl rfl rfl rfl rfl rfl rfl

/-! ## A failing `initialize` -/

theorem new_events_append (w w2 : World) (evs : List Event) (h : w2.log = w.log ++ evs) :
    new_events w w2 = evs := by
  simp [new_events, h]

theorem execute_of_connection_refused (self : MySQLClient) (query : String) (w : World)
    (h : connection_refused self w = true) :
    (self.execute query w).1 = Except.ok "kServerCrash" ∧
    (∀ text, Event.query text ∉ new_events w (self.execute query w).2) ∧
    (self.execute query w).2.open_handles = w.open_handles := by
  unfold connection_refused at h
  cases hi : (w.behaviour w.attempts).init_ok with
  | false =>
    simp [MySQLClient.execute, MySQLClient.create_connection, mysql_init, hi, new_events]
  | true =>
    cases hp : stoi self.port_ with
    | error e => simp [hi, hp, Except.toBool] at h
    | ok port =>
      have hc : (w.behaviour w.attempts).connect_ok = false := by
        simpa [hi, hp, Except.toBool] using h
      simp [MySQLClient.execute, MySQLClient.create_connection, mysql_init, hi, hp,
        mysql_real_connect, mysql_close, hc, new_events]

theorem execute_of_submission_crash (self : MySQLClient) (query : String) (w : World)
    (h : submission_crashes self query w = true) :
    (self.execute query w).1 = Except.ok "kServerCrash" ∧
    (self.execute query w).2.open_handles = w.open_handles + 1 := by
  unfold submission_crashes at h
  simp only [Bool.and_eq_true] at h
  obtain ⟨⟨⟨hi, hp⟩, hc⟩, hr⟩ := h
  cases hs : stoi self.port_ with
  | error e => simp [hs, Except.toBool] at hp
  | ok port =>
    simp [MySQLClient.execute, MySQLClient.create_connection, mysql_init, hi, hs,
      mysql_real_connect, hc, mysql_real_query, hr]

/-- C3: when `mysql_init` returns `NULL`, or `mysql_real_connect` is called and returns `NULL`,
`execute` returns `kServerCrash` and no exception, no query reaches the backend during the
call, and as many handles are open after the call as before it. -/
theorem execute_connection_refused (self : MySQLClient) (query : String) (w : World)
    (h : connection_refused self w = true) :
    (self.execute query w).1 = Except.ok "kServerCrash" ∧
    (∀ text, Event.query text ∉ new_events w (self.execute query w).2) ∧
    (self.execute query w).2.open_handles = w.open_handles :=
  execute_of_connection_refused self query w h

/-- The witness of C3: a backend whose `mysql_real_connect` fails. -/
theorem execute_connection_refused_witness :
    connection_refused configured_client world_refusing = true ∧
    (configured_client.execute "SELECT 1" world_refusing).1 = Except.ok "kServerCrash" ∧
    (configured_client.execute "SELECT 1" world_refusing).2.open_handles = 0 :=
  ⟨rfl, (execute_connection_refused configured_client "SELECT 1" world_refusing rfl).1,
    (execute_connection_refused configured_client "SELECT 1" world_refusing rfl).2.2⟩

/-! ## What `execute` returns -/

theorem pg_execute_value (self : PostgreSQLClient) (query : String) (w : PGWorld) :
    (self.execute query w).1 =
      (if (w.behaviour w.attempts).status ≠ ConnStatusType.CONNECTION_OK
          ∨ ((w.behaviour w.attempts).exec (c_str query)).2 ≠ ConnStatusType.CONNECTION_OK then
        "kServerCrash"
      else if ((w.behaviour w.attempts).exec (c_str query)).1 = ExecStatusType.PGRES_COMMAND_OK
          ∨ ((w.behaviour w.attempts).exec (c_str query)).1 = ExecStatusType.PGRES_TUPLES_OK then
        "kNormal"
      else "kExecuteError") := by
  unfold PostgreSQLClient.execute pg_create_connection PQconnectdb PQexec PQstatus
  by_cases h1 : (w.behaviour w.attempts).status = ConnStatusType.CONNECTION_OK
  · by_cases h2 : ((w.behaviour w.attempts).exec (c_str query)).2 = ConnStatusType.CONNECTION_OK
    · by_cases h3 : ((w.behaviour w.attempts).exec (c_str query)).1
          = ExecStatusType.PGRES_COMMAND_OK
      · simp [h1, h2, h3]
      · by_cases h4 : ((w.behaviour w.attempts).exec (c_str query)).1
            = ExecStatusType.PGRES_TUPLES_OK
        · simp [h1, h2, h4]
        · simp [h1, h2, h3, h4]
    · simp [h1, h2]
  · simp [h1]

/-- C1, counterexample: `PostgreSQLClient::execute` returns `kExecuteError` for a command the
backend rejects, and `MySQLClient::execute` returns the accumulated text `1 7ab` after
draining one result set; neither value is one of the four sentinels. -/
theorem execute_returns_other_values :
    (pg_client.execute "SELEC 1" pg_world_rejecting).1 = "kExecuteError" ∧
    "kExecuteError" ∉ outcome_sentinels ∧
    (configured_client.execute "SELECT 7, \x27ab\x27" world_with_row).1 = Except.ok "1 7ab" ∧
    "1 7ab" ∉ outcome_sentinels :=
  ⟨rfl, by decide, rfl, by decide⟩

/-- C1, amended: `MySQLClient::execute` returns `kServerCrash` when the connection cannot be
established and when the submission returns a crash code; `PostgreSQLClient::execute`
returns `kServerCrash` when the connection is not OK after connecting or after the command,
otherwise `kNormal` when the status of the result is `PGRES_COMMAND_OK` or `PGRES_TUPLES_OK`,
otherwise `kExecuteError`. -/
theorem execute_outcome (self : MySQLClient) (pg : PostgreSQLClient) (query : String)
    (w : World) (pw : PGWorld)
    (h : connection_refused self w = true ∨ submission_crashes self query w = true) :
    (self.execute query w).1 = Except.ok ExecutionStatus.kServerCrash.sentinel ∧
    (pg.execute query pw).1 =
      (if (pw.behaviour pw.attempts).status ≠ ConnStatusType.CONNECTION_OK
          ∨ ((pw.behaviour pw.attempts).exec (c_str query)).2 ≠ ConnStatusType.CONNECTION_OK then
        ExecutionStatus.kServerCrash.sentinel
      else if ((pw.behaviour pw.attempts).exec (c_str query)).1 = ExecStatusType.PGRES_COMMAND_OK
          ∨ ((pw.behaviour pw.attempts).exec (c_str query)).1 = ExecStatusType.PGRES_TUPLES_OK then
        ExecutionStatus.kNormal.sentinel
      else "kExecuteError") := by
  refine ⟨?_, pg_execute_value pg query pw⟩
  rcases h with h | h
  · exact (execute_of_connection_refused self query w h).1
  · exact (execute_of_submission_crash self query w h).1

/-- The witness of C1: a backend that answers the query with `CR_SERVER_LOST`. -/
theorem execute_outcome_witness :
    submission_crashes configured_client "SELECT 1" world_losing_server = true ∧
    (configured_client.execute "SELECT 1" world_losing_server).1 = Except.ok "kServerCrash" ∧
    (pg_client.execute "SELECT 1" pg_world_rejecting).1 = "kExecuteError" :=
  ⟨rfl,
    (execute_outcome configured_client pg_client "SELECT 1" world_losing_server
      pg_world_rejecting (Or.inr rfl)).1,
    (execute_outcome configured_client pg_client "SELECT 1" world_losing_server
      pg_world_rejecting (Or.inr rfl)).2⟩

/-! ## Handles, exceptions and the accumulated text at concrete inputs -/

/-- C5, the failing input: when the backend answers the submission with `CR_SERVER_LOST`,
`MySQLClient::execute` returns `kServerCrash` with one more handle open than before the
call; when the connection is bad after `PQexec`, `PostgreSQLClient::execute` returns
`kServerCrash` with one more connection object open than before the call. -/
theorem execute_leaves_handle_open :
    (configured_client.execute "SELECT 1" world_losing_server).1 = Except.ok "kServerCrash" ∧
    world_losing_server.open_handles = 0 ∧
    (configured_client.execute "SELECT 1" world_losing_server).2.open_handles = 1 ∧
    (pg_client.execute "SELECT 1" pg_world_losing_server).1 = "kServerCrash" ∧
    pg_world_losing_server.open_handles = 0 ∧
    (pg_client.execute "SELECT 1" pg_world_losing_server).2.open_handles = 1 :=
  ⟨rfl, rfl, rfl, rfl, rfl, rfl⟩

/-- C9, the failing input: `initialize` accepts the port `mysql`, and then `check_alive`,
`execute` and `clean_up_env` let the `std::invalid_argument` of `std::stoi` escape on a
backend that is up. -/
theorem check_alive_throws :
    ( MySQLClient.initialize MySQLClient.construct config_with_named_port 0).1 = Except.ok () ∧
    client_with_named_port.port_ = "mysql" ∧
    (client_with_named_port.check_alive world_with_row).1
      = Except.error (Exception.invalid_argument "stoi") ∧
    (client_with_named_port.execute "SELECT 1" world_with_row).1
      = Except.error (Exception.invalid_argument "stoi") ∧
    (client_with_named_port.clean_up_env world_with_row).1
      = Except.error (Exception.invalid_argument "stoi") :=
  ⟨rfl, rfl, rfl, rfl, rfl⟩

theorem create_request_ne_drop_request (a b : String) : create_request a ≠ drop_request b := by
  intro h
  have h2 := congrArg (fun s : String => s.data.head?) h
  have hC : ("CREATE DATABASE IF NOT EXISTS ").data = 'C' :: ("REATE DATABASE IF NOT EXISTS ").data :=
    rfl
  have hD : ("DROP DATABASE IF EXISTS ").data = 'D' :: ("ROP DATABASE IF EXISTS ").data := rfl
  simp only [create_request, drop_request, String.data_append, hC, hD, List.cons_append,
    List.head?_cons, Option.some.injEq] at h2
  exact absurd h2 (by decide)

theorem prepare_env_spec (self : MySQLClient) (w : World) :
    (self.prepare_env w).1 = { self with database_id_ := (self.database_id_ + 1) % 2 ^ 32 } ∧
    (self.prepare_env w).2.log =
      w.log ++ creation_events (w.behaviour w.attempts)
        (self.db_prefix_ ++ toString ((self.database_id_ + 1) % 2 ^ 32)) ∧
    (self.prepare_env w).2.attempts = w.attempts + 1 ∧
    (self.prepare_env w).2.behaviour = w.behaviour := by
  unfold MySQLClient.prepare_env MySQLClient.create_database creation_events create_request
    incr_unsigned
  cases hi : (w.behaviour w.attempts).init_ok with
  | false => simp [mysql_init, hi]
  | true =>
    cases hc : (w.behaviour w.attempts).connect_ok with
    | false => simp [mysql_init, hi, mysql_real_connect, hc, mysql_close]
    | true => simp [mysql_init, hi, mysql_real_connect, hc, mysql_close, mysql_real_query]

theorem counter_names_differ (db_pfx : String) (n : Nat) :
    db_pfx ++ toString ((n + 1) % 2 ^ 32) ≠ db_pfx ++ toString ((n + 2) % 2 ^ 32) := by
  intro h
  have h2 := toString_nat_injective _ _ (append_left_cancel _ _ _ h)
  norm_num at h2
  omega

/-- C8, counterexample: from the counter value `2 ^ 32 - 1` the first `prepare_env` asks for
the database `fuzz0`, not for the prefix followed by the decimal of `2 ^ 32`. -/
theorem prepare_env_wraps :
    client_at_last_id.database_id_ = 2 ^ 32 - 1 ∧
    client_at_last_id.db_prefix_ = "fuzz" ∧
    new_events world_with_row (client_at_last_id.prepare_env world_with_row).2 =
      [Event.connect none 0, Event.query "CREATE DATABASE IF NOT EXISTS fuzz0;"] ∧
    "fuzz0" ≠ "fuzz" ++ toString (4294967295 + 1) :=
  ⟨rfl, rfl, rfl, by decide⟩

/-- C8, amended: from the counter value `N`, two successive calls of `prepare_env` derive
the names prefix followed by the decimal of `(N + 1) mod 2 ^ 32` and prefix followed by the
decimal of `(N + 2) mod 2 ^ 32`, which differ; each call sends the `CREATE` statement for
its name when its connection is established, whatever the backend does with it, and
nothing else; the second call sends no `DROP` statement. -/
theorem prepare_env_twice (self : MySQLClient) (w : World) :
    self.db_prefix_ ++ toString ((self.database_id_ + 1) % 2 ^ 32) ≠
      self.db_prefix_ ++ toString ((self.database_id_ + 2) % 2 ^ 32) ∧
    (self.prepare_env w).1.db_prefix_ ++ toString (self.prepare_env w).1.database_id_ =
      self.db_prefix_ ++ toString ((self.database_id_ + 1) % 2 ^ 32) ∧
    ((self.prepare_env w).1.prepare_env (self.prepare_env w).2).1.db_prefix_
        ++ toString ((self.prepare_env w).1.prepare_env (self.prepare_env w).2).1.database_id_ =
      self.db_prefix_ ++ toString ((self.database_id_ + 2) % 2 ^ 32) ∧
    new_events w (self.prepare_env w).2 =
      creation_events (w.behaviour w.attempts)
        (self.db_prefix_ ++ toString ((self.database_id_ + 1) % 2 ^ 32)) ∧
    new_events (self.prepare_env w).2 ((self.prepare_env w).1.prepare_env (self.prepare_env w).2).2 =
      creation_events (w.behaviour (w.attempts + 1))
        (self.db_prefix_ ++ toString ((self.database_id_ + 2) % 2 ^ 32)) ∧
    (∀ name, Event.query (drop_request name) ∉
      new_events (self.prepare_env w).2
        ((self.prepare_env w).1.prepare_env (self.prepare_env w).2).2) := by
  obtain ⟨h1, h2, h3, h4⟩ := prepare_env_spec self w
  obtain ⟨k1, k2, _, _⟩ := prepare_env_spec (self.prepare_env w).1 (self.prepare_env w).2
  have hid : ((self.database_id_ + 1) % 2 ^ 32 + 1) % 2 ^ 32 = (self.database_id_ + 2) % 2 ^ 32 := by
    norm_num
  have e1 : (self.prepare_env w).1.database_id_ = (self.database_id_ + 1) % 2 ^ 32 := by
    rw [h1]
  have e2 : (self.prepare_env w).1.db_prefix_ = self.db_prefix_ := by
    rw [h1]
  rw [e1, e2, hid, h3, h4] at k2
  have n1 := new_events_append w _ _ h2
  have n2 := new_events_append (self.prepare_env w).2 _ _ k2
  refine ⟨counter_names_differ _ _, by rw [e1, e2], ?_, n1, n2, ?_⟩
  · rw [k1, e1, e2]
    simp only [hid]
  · intro name hmem
    rw [n2] at hmem
    unfold creation_events at hmem
    split at hmem
    · split at hmem
      · simp only [List.mem_cons, List.mem_singleton, Event.query.injEq, List.not_mem_nil,
          or_false, false_or, reduceCtorEq] at hmem
        exact create_request_ne_drop_request _ _ hmem.symm
      · simp at hmem
    · simp at hmem

/-! ## The iteration counter and the database name -/

end client
